import Mathlib

/-!
Verification development for the `linux-monitoring` system health monitor
(`system-health-monitor.js`): a shallow embedding of the threshold-evaluation
and alert-dispatch engine, followed by theorems about its behaviour.

Modelling conventions:
* JavaScript metric values are modelled as `JSNum` (a rational value or NaN);
  a metric provider result is `Option JSNum`, where `none` is the `null`
  failure sentinel and `JSNum.nan` is the result of a `parseFloat` that
  failed without throwing.
* Timestamps (`Date.now()`) are integers measured in milliseconds, and the
  integer result of `parseInt` on the persisted timestamp file is a `JSInt`
  (an integer or NaN).
* File-system effects on the `.last_health_alert` file are modelled by an
  explicit `AlertFile` state threaded through the functions that touch it.
* External shell-out providers (top process lists, detailed memory/swap
  info, uptime, load, disk) are inputs of the evaluation environment.
-/

/-- A JavaScript number as it appears in a metric sample: either an actual
(rational) value or NaN, the result of a failed parse.  Every numeric
comparison against NaN is false, as in JavaScript. -/
inductive JSNum where
  | nan : JSNum
  | val : ℚ → JSNum
deriving DecidableEq

/-- A JavaScript number known to be integral or NaN, as produced by
`parseInt` on the persisted last-alert timestamp. -/
inductive JSInt where
  | nan : JSInt
  | val : Int → JSInt
deriving DecidableEq

/-- Models the guard `x !== null && x >= t` used for each metric:
false when the provider returned the `null` sentinel, false when it
returned NaN (NaN comparisons are false in JavaScript), and the plain
comparison otherwise. -/
def jsGe (x : Option JSNum) (t : ℚ) : Bool :=
  match x with
  | some (JSNum.val q) => decide (t ≤ q)
  | _ => false

/-- Extracts the rational value of a metric sample; only ever used under a
`jsGe` guard, which guarantees the `val` case. -/
def jsVal (x : Option JSNum) : ℚ :=
  match x with
  | some (JSNum.val q) => q
  | _ => 0

/-- Character for a decimal digit `d < 10`, as produced by JavaScript
number-to-string conversion. -/
def digitChar (d : Nat) : Char := Char.ofNat (48 + d)

/-- Decimal digit list of a natural number (most significant first),
with explicit fuel for termination. -/
def natToStrAux : Nat → Nat → List Char
  | 0, _ => []
  | fuel + 1, n =>
    if n < 10 then [digitChar n]
    else natToStrAux fuel (n / 10) ++ [digitChar (n % 10)]

/-- Decimal string of a natural number, as JavaScript renders integers. -/
def natToStr (n : Nat) : String := ⟨natToStrAux (n + 1) n⟩

/-- Models JavaScript `Number.prototype.toFixed(1)`: round `|q|` to the
nearest tenth (ties rounded up, per the spec's "pick the larger n"), render
integer part, a decimal point and exactly one fractional digit, and prefix
the sign.  `(20 * a + b) / (2 * b)` is `⌊10 * (a / b) + 1 / 2⌋` computed on
numerator and denominator directly. -/
def toFixed1 (q : ℚ) : String :=
  let n : Nat := (20 * q.num.natAbs + q.den) / (2 * q.den)
  let s := natToStr (n / 10) ++ "." ++ natToStr (n % 10)
  if q.num < 0 then "-" ++ s else s

/-- Fractional decimal digits of the reduced remainder `r / den`
(`0 < r < den`), with fuel bounding the number of digits produced
(JavaScript prints at most 17 significant digits). -/
def fracDigits : Nat → Nat → Nat → List Char
  | 0, _, _ => []
  | fuel + 1, r, den =>
    if r = 0 then []
    else digitChar (10 * r / den) :: fracDigits fuel (10 * r % den) den

/-- Models JavaScript default number-to-string conversion (template-literal
interpolation) for the finite-decimal values the monitor displays: integers
render with no decimal point, fractional values with their decimal digits. -/
def showNum (q : ℚ) : String :=
  let sign := if q.num < 0 then "-" else ""
  let na := q.num.natAbs
  let ip := na / q.den
  let r := na % q.den
  if r = 0 then sign ++ natToStr ip
  else sign ++ natToStr ip ++ "." ++ ⟨fracDigits 20 r q.den⟩

/-- Renders a `JSNum` the way a JavaScript template literal does. -/
def jsShow (x : JSNum) : String :=
  match x with
  | JSNum.nan => "NaN"
  | JSNum.val q => showNum q

/-- `hasOneDecimal s` holds when `s` ends in a decimal point followed by
exactly one digit — the shape `toFixed(1)` output has. -/
def hasOneDecimal (s : String) : Bool :=
  match s.data.reverse with
  | d :: c :: _ => d.isDigit && decide (c = '.')
  | _ => false

/-- Truncation `s.substring(0, n)` from the source, modelled on the
character list of the string. -/
def strTake (s : String) (n : Nat) : String := ⟨s.data.take n⟩

/-- One row of `ps aux` output as parsed by `getTopCpuProcesses` /
`getTopMemoryProcesses`: `cpu` and `mem` went through `parseFloat` and so
may be NaN; the remaining columns stay strings. -/
structure ProcessRecord where
  user : String
  pid : String
  cpu : JSNum
  mem : JSNum
  vsz : String
  rss : String
  tty : String
  stat : String
  start : String
  time : String
  command : String
deriving DecidableEq

/-- The `processes` argument of `formatProcessList`, which may be `null`
(tested by `!processes`) or a JavaScript array. -/
inductive PList where
  | null : PList
  | list : List ProcessRecord → PList
deriving DecidableEq

/-- One numbered entry of the formatted process list (`index` is 0-based,
rendered 1-based), from the `map` body of `formatProcessList`. -/
def formatEntry (index : Nat) (proc : ProcessRecord) (type : String) : String :=
  let shortCommand :=
    if proc.command.length > 50 then strTake proc.command 47 ++ "..." else proc.command
  natToStr (index + 1) ++ ". *" ++ shortCommand ++ "*\n   PID: " ++ proc.pid ++
    " | User: " ++ proc.user ++ " | " ++
    (if type = "cpu" then "CPU: " ++ jsShow proc.cpu ++ "%"
     else "Memory: " ++ jsShow proc.mem ++ "%") ++
    " | RSS: " ++ proc.rss

/-- `formatProcessList` from the source: the literal `"No processes found"`
for null or empty input, otherwise the newline-joined numbered entries. -/
def formatProcessList (processes : PList) (type : String) : String :=
  match processes with
  | PList.null => "No processes found"
  | PList.list ps =>
    if ps.length = 0 then "No processes found"
    else String.intercalate "\n"
      ((List.range ps.length).zip ps |>.map fun ip => formatEntry ip.1 ip.2 type)

-- Configuration constants from the top of the source file.

/-- `CPU_THRESHOLD = 90` (%). -/
def CPU_THRESHOLD : ℚ := 90

/-- `MEM_THRESHOLD = 90` (%). -/
def MEM_THRESHOLD : ℚ := 90

/-- `SWAP_THRESHOLD = 50` (%). -/
def SWAP_THRESHOLD : ℚ := 50

/-- `CPU_OVER_THRESHOLD_DURATION = 5 * 60 * 1000` milliseconds. -/
def CPU_OVER_THRESHOLD_DURATION : Int := 5 * 60 * 1000

/-- `ALERT_COOLDOWN = 30 * 60 * 1000` milliseconds. -/
def ALERT_COOLDOWN : Int := 30 * 60 * 1000

/-- State of the `.last_health_alert` file: absent, present but failing to
read (an `fs.readFileSync` error), or present with string contents. -/
inductive AlertFile where
  | missing : AlertFile
  | readError : AlertFile
  | content : String → AlertFile
deriving DecidableEq

/-- Digit-run parsing shared by `parseIntJS`: the value of the leading run
of decimal digits, NaN when there is none, negated when `neg` is set. -/
def parseDigits (neg : Bool) (cs : List Char) : JSInt :=
  let ds := cs.takeWhile Char.isDigit
  if ds.length = 0 then JSInt.nan
  else
    let v : Nat := ds.foldl (fun a c => a * 10 + (c.toNat - 48)) 0
    if neg then JSInt.val (-(v : Int)) else JSInt.val (v : Int)

/-- Models JavaScript `parseInt` on the (whitespace-free) strings this
program persists: an optional sign, then the leading run of decimal digits;
NaN when there is none. -/
def parseIntJS (s : String) : JSInt :=
  match s.data with
  | '-' :: rest => parseDigits true rest
  | '+' :: rest => parseDigits false rest
  | cs => parseDigits false cs

/-- `getLastAlertTime` from the source: 0 when the file does not exist, 0
when reading it throws (the error is caught and logged), and the `parseInt`
of its contents otherwise. -/
def getLastAlertTime (file : AlertFile) : JSInt :=
  match file with
  | AlertFile.missing => JSInt.val 0
  | AlertFile.readError => JSInt.val 0
  | AlertFile.content s => parseIntJS s

/-- `setLastAlertTime` from the source: write `Date.now().toString()`;
a write failure (`writeOk = false`) is caught, logged and leaves the file
as it was.  Returns the new file state and the log lines emitted. -/
def setLastAlertTime (now : Int) (writeOk : Bool) (file : AlertFile) :
    AlertFile × List String :=
  if writeOk then (AlertFile.content (showNum (now : ℚ)), [])
  else (file, ["Error writing last alert time"])

/-- One supplementary field of an alert descriptor. -/
structure AlertField where
  title : String
  value : String
  short : Bool
deriving DecidableEq

/-- An alert descriptor as pushed onto the `alerts` array by
`checkSystemHealth`. -/
structure Alert where
  title : String
  value : String
  fields : List AlertField
deriving DecidableEq

/-- Output of `free -h` parsing for memory (`getDetailedMemoryInfo`). -/
structure MemDetail where
  total : String
  used : String
  free : String
  shared : String
  cache : String
  available : String
deriving DecidableEq

/-- Output of `free -h` parsing for swap (`getDetailedSwapInfo`). -/
structure SwapDetail where
  total : String
  used : String
  free : String
deriving DecidableEq

/-- Output of `df -h /` parsing (`getDiskUsage`). -/
structure DiskDetail where
  filesystem : String
  size : String
  used : String
  available : String
  usagePercent : String
  mountpoint : String
deriving DecidableEq

/-- The environment of one `checkSystemHealth` cycle: the three metric
samples, the results the external providers would return if called, the
persisted-alert-file state and the current time `Date.now()`. -/
structure Env where
  cpu : Option JSNum
  mem : Option JSNum
  swap : Option JSNum
  topCpu : Nat → List ProcessRecord
  topMem : Nat → List ProcessRecord
  memDetail : Option MemDetail
  swapDetail : Option SwapDetail
  alertFile : AlertFile
  now : Int

/-- The JavaScript truthiness test `!cpuOverThresholdSince`: true for
`null` and for the number 0. -/
def falsy (o : Option Int) : Bool :=
  match o with
  | none => true
  | some t => decide (t = 0)

/-- Body text of the CPU alert descriptor (source lines 276-286). -/
def cpuAlertBody (cpuVal : ℚ) (now since : Int) (procs : List ProcessRecord) : String :=
  "*Current CPU Usage: " ++ toFixed1 cpuVal ++ "%*\n*Threshold: " ++
    showNum CPU_THRESHOLD ++ "%*\n*Duration: " ++
    toFixed1 (Rat.divInt (now - since) 60000) ++ " minutes*\n\n*Top CPU Processes:*\n" ++
    formatProcessList (PList.list procs) "cpu"

/-- Supplementary fields of the CPU alert descriptor. -/
def cpuAlertFields : List AlertField :=
  [⟨"System Impact",
    "High CPU usage can cause system slowdown, increased response times, and potential service degradation.",
    false⟩]

/-- The CPU branch of `checkSystemHealth` (source lines 267-292): returns
the CPU alerts pushed this cycle and the new `cpuOverThresholdSince`. -/
def cpuCheck (env : Env) (since0 : Option Int) : List Alert × Option Int :=
  if jsGe env.cpu CPU_THRESHOLD then
    let since1 : Int := if falsy since0 then env.now else since0.getD 0
    if CPU_OVER_THRESHOLD_DURATION ≤ env.now - since1 then
      ([⟨"🚀 High CPU Usage Detected",
         cpuAlertBody (jsVal env.cpu) env.now since1 (env.topCpu 8),
         cpuAlertFields⟩], some since1)
    else ([], some since1)
  else ([], none)

/-- Body text of the memory alert descriptor (source lines 299-305). -/
def memAlertBody (memVal : ℚ) (detail : Option MemDetail)
    (procs : List ProcessRecord) : String :=
  let base := "*Current Memory Usage: " ++ toFixed1 memVal ++ "%*\n*Threshold: " ++
    showNum MEM_THRESHOLD ++ "%*"
  let withDetail :=
    match detail with
    | some d => base ++ "\n*Memory Breakdown:*\n• Total: " ++ d.total ++
        "\n• Used: " ++ d.used ++ "\n• Available: " ++ d.available ++
        "\n• Cache: " ++ d.cache
    | none => base
  withDetail ++ "\n\n*Top Memory Processes:*\n" ++
    formatProcessList (PList.list procs) "memory"

/-- Supplementary fields of the memory alert descriptor. -/
def memAlertFields (detail : Option MemDetail) : List AlertField :=
  [⟨"Memory Status",
    match detail with
    | some d => "Used: " ++ d.used ++ " | Available: " ++ d.available ++
        " | Cache: " ++ d.cache
    | none => "Memory details unavailable",
    true⟩,
   ⟨"Potential Issues",
    "High memory usage may lead to swapping, system slowdown, and potential out-of-memory errors.",
    false⟩]

/-- The memory branch of `checkSystemHealth` (source lines 294-323):
purely instantaneous, no carried state. -/
def memCheck (env : Env) : List Alert :=
  if jsGe env.mem MEM_THRESHOLD then
    [⟨"🧠 High Memory Usage Detected",
      memAlertBody (jsVal env.mem) env.memDetail (env.topMem 8),
      memAlertFields env.memDetail⟩]
  else []

/-- Body text of the swap alert descriptor (source lines 327-331); no
process list. -/
def swapAlertBody (swapVal : ℚ) (detail : Option SwapDetail) : String :=
  let base := "*Current Swap Usage: " ++ toFixed1 swapVal ++ "%*\n*Threshold: " ++
    showNum SWAP_THRESHOLD ++ "%*"
  match detail with
  | some d => base ++ "\n*Swap Breakdown:*\n• Total: " ++ d.total ++
      "\n• Used: " ++ d.used ++ "\n• Free: " ++ d.free
  | none => base

/-- Supplementary fields of the swap alert descriptor. -/
def swapAlertFields (detail : Option SwapDetail) : List AlertField :=
  [⟨"Swap Status",
    match detail with
    | some d => "Used: " ++ d.used ++ " | Free: " ++ d.free
    | none => "Swap details unavailable",
    true⟩,
   ⟨"Performance Impact",
    "High swap usage indicates memory pressure and will significantly slow down system performance.",
    false⟩]

/-- The swap branch of `checkSystemHealth` (source lines 325-349):
purely instantaneous, no carried state. -/
def swapCheck (env : Env) : List Alert :=
  if jsGe env.swap SWAP_THRESHOLD then
    [⟨"💾 High Swap Usage Detected",
      swapAlertBody (jsVal env.swap) env.swapDetail,
      swapAlertFields env.swapDetail⟩]
  else []

/-- The cooldown comparison `now - lastAlertTime >= ALERT_COOLDOWN`, with
JavaScript NaN semantics when the persisted timestamp parsed as NaN. -/
def cooldownGate (now : Int) (last : JSInt) : Bool :=
  match last with
  | JSInt.nan => false
  | JSInt.val t => decide (ALERT_COOLDOWN ≤ now - t)

/-- What the tail of `checkSystemHealth` (source lines 351-360) did this
cycle: called `sendSlackAlert`, suppressed the alerts because the cooldown
window is still active, or found nothing to alert on. -/
inductive Outcome where
  | sent : Outcome
  | cooldownActive : Outcome
  | healthy : Outcome
deriving DecidableEq

/-- Result of one `checkSystemHealth` cycle: the descriptor list built this
cycle, the new `cpuOverThresholdSince` (the only cross-cycle state the
evaluator owns) and the dispatch outcome. -/
structure CheckResult where
  alerts : List Alert
  newSince : Option Int
  outcome : Outcome

/-- `checkSystemHealth` from the source: run the CPU, memory and swap
branches in that order, then gate the non-empty descriptor list on the
global cooldown. -/
def checkSystemHealth (env : Env) (since0 : Option Int) : CheckResult :=
  let cpuRes := cpuCheck env since0
  let alerts := cpuRes.1 ++ memCheck env ++ swapCheck env
  { alerts := alerts
    newSince := cpuRes.2
    outcome :=
      if alerts.length > 0 then
        if cooldownGate env.now (getLastAlertTime env.alertFile) then Outcome.sent
        else Outcome.cooldownActive
      else Outcome.healthy }

/-- One attachment of the composed Slack message. -/
structure Attachment where
  color : String
  title : String
  text : String
  fields : List AlertField
  ts : Int
deriving DecidableEq

/-- The composed Slack message: header text plus one attachment per alert
descriptor. -/
structure SlackMessage where
  text : String
  attachments : List Attachment
deriving DecidableEq

/-- Context fetched fresh by `sendSlackAlert` at composition time:
hostname, uptime, load averages, root-disk usage, and the send timestamp
`Math.floor(Date.now() / 1000)`. -/
structure SendCtx where
  hostname : String
  uptime : Option String
  load : Option (ℚ × ℚ × ℚ)
  disk : Option DiskDetail
  tsSec : Int

/-- Message composition from `sendSlackAlert` (source lines 224-246):
header line, conditional uptime/load/disk lines, then one `danger`
attachment per alert descriptor, in the descriptors' order. -/
def composeMessage (ctx : SendCtx) (alerts : List Alert) : SlackMessage :=
  let t0 := "🚨 *System Health Alert on " ++ ctx.hostname ++ "*"
  let t1 := match ctx.uptime with
    | some u => t0 ++ "\n⏰ Uptime: " ++ u
    | none => t0
  let t2 := match ctx.load with
    | some l => t1 ++ "\n📊 Load: " ++ showNum l.1 ++ " (1m), " ++
        showNum l.2.1 ++ " (5m), " ++ showNum l.2.2 ++ " (15m)"
    | none => t1
  let t3 := match ctx.disk with
    | some d => t2 ++ "\n💾 Root Disk: " ++ d.used ++ "/" ++ d.size ++
        " (" ++ d.usagePercent ++ ")"
    | none => t2
  { text := t3
    attachments := alerts.map fun a => ⟨"danger", a.title, a.value, a.fields, ctx.tsSec⟩ }

/-- `sendSlackAlert` from the source: compose the message, post it, and
only on a successful post (`postOk = true`) log success and call
`setLastAlertTime`; on a failed post log the error and leave the file
untouched.  Total function: no exception escapes to the caller. -/
def sendSlackAlert (ctx : SendCtx) (postOk writeOk : Bool) (now : Int)
    (alerts : List Alert) (file : AlertFile) :
    SlackMessage × AlertFile × List String :=
  let message := composeMessage ctx alerts
  if postOk then
    let written := setLastAlertTime now writeOk file
    (message, written.1, "Slack alert sent" :: written.2)
  else
    (message, file, ["Error sending Slack message"])

/-- `alerts` contains the CPU descriptor (recognised by its title). -/
def hasCpuAlert (alerts : List Alert) : Bool :=
  alerts.any fun a => a.title = "🚀 High CPU Usage Detected"

/-- `alerts` contains the memory descriptor (recognised by its title). -/
def hasMemAlert (alerts : List Alert) : Bool :=
  alerts.any fun a => a.title = "🧠 High Memory Usage Detected"

/-- `alerts` contains the swap descriptor (recognised by its title). -/
def hasSwapAlert (alerts : List Alert) : Bool :=
  alerts.any fun a => a.title = "💾 High Swap Usage Detected"

example : formatProcessList PList.null "cpu" = "No processes found" := by decide
example : natToStr 90 = "90" := by decide
example : toFixed1 95 = "95.0" := by decide
example : toFixed1 (Rat.divInt 51 2) = "25.5" := by decide
example : showNum 90 = "90" := by decide
example : showNum (Rat.divInt 51 2) = "25.5" := by decide
example : hasOneDecimal "95.0" = true := by decide
example : hasOneDecimal "90" = false := by decide


-- Helper lemmas shared by the claim theorems.

lemma digitChar_isDigit {d : Nat} (h : d < 10) : (digitChar d).isDigit = true := by
  interval_cases d <;> decide

lemma natToStr_lt10 {n : Nat} (h : n < 10) : natToStr n = ⟨[digitChar n]⟩ := by
  unfold natToStr natToStrAux
  simp [h]

lemma hasOneDecimal_cat (a : String) (d : Char) (hd : d.isDigit = true) :
    hasOneDecimal (a ++ "." ++ ⟨[d]⟩) = true := by
  unfold hasOneDecimal
  rw [String.data_append, String.data_append]
  simp [hd]

lemma hasOneDecimal_toFixed1 {q : ℚ} (h : 0 ≤ q) : hasOneDecimal (toFixed1 q) = true := by
  have hnum : ¬ q.num < 0 := Int.not_lt.mpr (Rat.num_nonneg.mpr h)
  have hmod : (20 * q.num.natAbs + q.den) / (2 * q.den) % 10 < 10 :=
    Nat.mod_lt _ (by norm_num)
  unfold toFixed1
  simp only [hnum, if_false]
  rw [natToStr_lt10 hmod]
  exact hasOneDecimal_cat _ _ (digitChar_isDigit hmod)

lemma hasCpuAlert_append (a b : List Alert) :
    hasCpuAlert (a ++ b) = (hasCpuAlert a || hasCpuAlert b) := by
  simp [hasCpuAlert]

lemma hasMemAlert_append (a b : List Alert) :
    hasMemAlert (a ++ b) = (hasMemAlert a || hasMemAlert b) := by
  simp [hasMemAlert]

lemma hasSwapAlert_append (a b : List Alert) :
    hasSwapAlert (a ++ b) = (hasSwapAlert a || hasSwapAlert b) := by
  simp [hasSwapAlert]

lemma hasCpuAlert_memCheck (env : Env) : hasCpuAlert (memCheck env) = false := by
  unfold memCheck
  split <;> simp [hasCpuAlert]

lemma hasCpuAlert_swapCheck (env : Env) : hasCpuAlert (swapCheck env) = false := by
  unfold swapCheck
  split <;> simp [hasCpuAlert]

lemma hasMemAlert_cpuCheck (env : Env) (s0 : Option Int) :
    hasMemAlert (cpuCheck env s0).1 = false := by
  unfold cpuCheck
  repeat' split
  all_goals simp [hasMemAlert]
  all_goals split <;> simp

lemma hasMemAlert_swapCheck (env : Env) : hasMemAlert (swapCheck env) = false := by
  unfold swapCheck
  split <;> simp [hasMemAlert]

lemma hasSwapAlert_cpuCheck (env : Env) (s0 : Option Int) :
    hasSwapAlert (cpuCheck env s0).1 = false := by
  unfold cpuCheck
  repeat' split
  all_goals simp [hasSwapAlert]
  all_goals split <;> simp

lemma hasSwapAlert_memCheck (env : Env) : hasSwapAlert (memCheck env) = false := by
  unfold memCheck
  split <;> simp [hasSwapAlert]

lemma checkSystemHealth_alerts_eq (env : Env) (s0 : Option Int) :
    (checkSystemHealth env s0).alerts =
      (cpuCheck env s0).1 ++ memCheck env ++ swapCheck env := rfl

lemma checkSystemHealth_newSince_eq (env : Env) (s0 : Option Int) :
    (checkSystemHealth env s0).newSince = (cpuCheck env s0).2 := rfl

-- Claim theorems.

/-- C7: `formatProcessList` returns the literal "No processes found" for
null or empty input; for non-empty input the entries are numbered from 1,
each a bolded (possibly truncated) command line followed by a detail line
with PID, user, the mode-selected percentage and RSS; a command longer than
50 characters is truncated to its first 47 characters plus an ellipsis
marker. -/
theorem c7_formatProcessList :
    formatProcessList PList.null "cpu" = "No processes found"
    ∧ formatProcessList (PList.list []) "cpu" = "No processes found"
    ∧ (∀ (p : ProcessRecord) (ty : String),
        formatProcessList (PList.list [p]) ty = formatEntry 0 p ty)
    ∧ (∀ (p p2 : ProcessRecord) (ty : String), formatProcessList (PList.list [p, p2]) ty =
        formatEntry 0 p ty ++ "\n" ++ formatEntry 1 p2 ty)
    ∧ (∀ (p : ProcessRecord) (ty : String), 50 < p.command.length →
        formatEntry 0 p ty = "1. *" ++ (strTake p.command 47 ++ "...") ++ "*\n   PID: " ++
          p.pid ++ " | User: " ++ p.user ++ " | " ++
          (if ty = "cpu" then "CPU: " ++ jsShow p.cpu ++ "%"
           else "Memory: " ++ jsShow p.mem ++ "%") ++
          " | RSS: " ++ p.rss)
    ∧ (∀ (p : ProcessRecord), p.command.length = 80 →
        (strTake p.command 47).length = 47 ∧ (strTake p.command 47 ++ "...").length = 50) := by
  refine ⟨rfl, rfl, ?_, ?_, ?_, ?_⟩
  · intro p ty
    simp [formatProcessList, String.intercalate, List.intercalate, String.intercalate.go,
      List.range, List.range.loop]
  · intro p p2 ty
    simp [formatProcessList, String.intercalate, List.intercalate, String.intercalate.go,
      List.range, List.range.loop]
  · intro p ty h
    unfold formatEntry
    simp only [if_pos h, natToStr]
    rfl
  · intro p h
    have hmin : (strTake p.command 47).length = min 47 p.command.length := by
      show (p.command.data.take 47).length = min 47 p.command.data.length
      exact List.length_take ..
    have h1 : (strTake p.command 47).length = 47 := by
      rw [hmin, h]
      decide
    refine ⟨h1, ?_⟩
    rw [String.length_append, h1]
    decide

/-- Concrete process record with an 80-character command, used as the C7
witness input. -/
def procLong : ProcessRecord :=
  { user := "root", pid := "4242", cpu := JSNum.val 95, mem := JSNum.val 10
    vsz := "123456", rss := "65536", tty := "?", stat := "R", start := "10:00"
    time := "1:23"
    command := "abcdefghijabcdefghijabcdefghijabcdefghijabcdefghijabcdefghijabcdefghijabcdefghij" }

/-- Witness for C7 at a concrete 80-character command. -/
theorem c7_witness :
    50 < procLong.command.length ∧ procLong.command.length = 80
    ∧ formatEntry 0 procLong "cpu" = "1. *" ++ (strTake procLong.command 47 ++ "...") ++
        "*\n   PID: " ++ procLong.pid ++ " | User: " ++ procLong.user ++ " | " ++
        (if "cpu" = "cpu" then "CPU: " ++ jsShow procLong.cpu ++ "%"
         else "Memory: " ++ jsShow procLong.mem ++ "%") ++ " | RSS: " ++ procLong.rss
    ∧ (strTake procLong.command 47).length = 47
    ∧ (strTake procLong.command 47 ++ "...").length = 50 := by
  refine ⟨by decide, by decide, c7_formatProcessList.2.2.2.2.1 procLong "cpu" (by decide), ?_, ?_⟩
  · exact (c7_formatProcessList.2.2.2.2.2 procLong (by decide)).1
  · exact (c7_formatProcessList.2.2.2.2.2 procLong (by decide)).2

/-- C8: reading the persisted last-alert timestamp yields 0 when the file
was never written (missing) or is unreadable (read throws); a write failure
is logged, is non-fatal and leaves the stored value unchanged. -/
theorem c8_lastAlertTime_persistence :
    getLastAlertTime AlertFile.missing = JSInt.val 0
    ∧ getLastAlertTime AlertFile.readError = JSInt.val 0
    ∧ (∀ now file, (setLastAlertTime now false file).1 = file
        ∧ (setLastAlertTime now false file).2 = ["Error writing last alert time"]
        ∧ getLastAlertTime (setLastAlertTime now false file).1 = getLastAlertTime file) := by
  exact ⟨rfl, rfl, fun now file => ⟨rfl, rfl, rfl⟩⟩

/-- C4: on transport failure (`postOk = false`), `sendSlackAlert` leaves the
persisted last-alert file untouched (so the cooldown remains keyed to the
last successful send), logs the error, still returns (no exception reaches
the scheduler), and never calls `setLastAlertTime`. -/
theorem c4_failed_send_keeps_cooldown :
    ∀ ctx writeOk now alerts file,
      (sendSlackAlert ctx false writeOk now alerts file).2.1 = file
      ∧ (sendSlackAlert ctx false writeOk now alerts file).2.2 = ["Error sending Slack message"]
      ∧ getLastAlertTime (sendSlackAlert ctx false writeOk now alerts file).2.1 =
          getLastAlertTime file
      ∧ (sendSlackAlert ctx false writeOk now alerts file).1 = composeMessage ctx alerts := by
  intro ctx writeOk now alerts file
  exact ⟨rfl, rfl, rfl, rfl⟩

/-- C1: when `cpuPercent` is present and at-or-above the threshold, the new
sustain state is the falsy-updated `overThresholdSince`; a CPU descriptor is
produced iff `now - overThresholdSince >= CPU_OVER_THRESHOLD_DURATION`; on
the first cycle of an excursion (`since0 = none`) no descriptor is produced;
and a produced descriptor carries the CPU value to one decimal, the
threshold, elapsed minutes to one decimal and the formatted top-8 CPU
process list. -/
theorem c1_cpu_sustained_gate (env : Env) (s0 : Option Int) (q : ℚ)
    (hcpu : env.cpu = some (JSNum.val q)) (hge : CPU_THRESHOLD ≤ q) :
    (checkSystemHealth env s0).newSince =
        some (if falsy s0 then env.now else s0.getD 0)
    ∧ (hasCpuAlert (checkSystemHealth env s0).alerts = true ↔
        CPU_OVER_THRESHOLD_DURATION ≤ env.now - (if falsy s0 then env.now else s0.getD 0))
    ∧ (s0 = none → hasCpuAlert (checkSystemHealth env s0).alerts = false)
    ∧ (CPU_OVER_THRESHOLD_DURATION ≤ env.now - (if falsy s0 then env.now else s0.getD 0) →
        (checkSystemHealth env s0).alerts.head? =
          some ⟨"🚀 High CPU Usage Detected",
            cpuAlertBody q env.now (if falsy s0 then env.now else s0.getD 0) (env.topCpu 8),
            cpuAlertFields⟩
        ∧ hasOneDecimal (toFixed1 q) = true
        ∧ hasOneDecimal (toFixed1 (Rat.divInt
            (env.now - (if falsy s0 then env.now else s0.getD 0)) 60000)) = true) := by
  have hguard : jsGe env.cpu CPU_THRESHOLD = true := by
    rw [hcpu]; exact decide_eq_true hge
  have hval : jsVal env.cpu = q := by rw [hcpu]; rfl
  set since1 := (if falsy s0 then env.now else s0.getD 0) with hs
  have hcc : cpuCheck env s0 =
      if CPU_OVER_THRESHOLD_DURATION ≤ env.now - since1 then
        ([⟨"🚀 High CPU Usage Detected",
           cpuAlertBody q env.now since1 (env.topCpu 8), cpuAlertFields⟩], some since1)
      else ([], some since1) := by
    unfold cpuCheck
    rw [hguard, hval]
    simp
  have halerts := checkSystemHealth_alerts_eq env s0
  have hsince := checkSystemHealth_newSince_eq env s0
  by_cases hdur : CPU_OVER_THRESHOLD_DURATION ≤ env.now - since1
  · rw [if_pos hdur] at hcc
    refine ⟨?_, ⟨fun _ => hdur, fun _ => ?_⟩, ?_, fun _ => ⟨?_, ?_, ?_⟩⟩
    · rw [hsince, hcc]
    · rw [halerts, hcc]
      simp [hasCpuAlert_append, hasCpuAlert]
    · intro h0
      exfalso
      rw [h0] at hs
      simp [falsy] at hs
      rw [hs, sub_self] at hdur
      norm_num [CPU_OVER_THRESHOLD_DURATION] at hdur
    · rw [halerts, hcc]
      rfl
    · exact hasOneDecimal_toFixed1 (le_trans (by norm_num [CPU_THRESHOLD]) hge)
    · refine hasOneDecimal_toFixed1 (Rat.divInt_nonneg ?_ (by norm_num))
      have : (0 : Int) ≤ CPU_OVER_THRESHOLD_DURATION := by
        norm_num [CPU_OVER_THRESHOLD_DURATION]
      exact le_trans this hdur
  · rw [if_neg hdur] at hcc
    refine ⟨?_, ⟨fun hA => ?_, fun hdd => absurd hdd hdur⟩, fun _ => ?_,
      fun hdd => absurd hdd hdur⟩
    · rw [hsince, hcc]
    · exfalso
      rw [halerts, hcc] at hA
      simp only [List.nil_append, hasCpuAlert_append, hasCpuAlert_memCheck,
        hasCpuAlert_swapCheck, Bool.or_self] at hA
      exact Bool.false_ne_true hA
    · rw [halerts, hcc]
      simp only [List.nil_append, hasCpuAlert_append, hasCpuAlert_memCheck,
        hasCpuAlert_swapCheck, Bool.or_self]

/-- Concrete environment for the C1 witness: CPU at 95% with the excursion
having started 400000 ms (6.7 min) before `now`. -/
def envC1 : Env :=
  { cpu := some (JSNum.val 95), mem := none, swap := none
    topCpu := fun _ => [], topMem := fun _ => []
    memDetail := none, swapDetail := none
    alertFile := AlertFile.missing, now := 10000000 }

/-- Witness for C1: at `since0 = some 9600000` the elapsed 400000 ms exceeds
the 300000 ms duration, so the CPU descriptor is produced. -/
theorem c1_witness :
    envC1.cpu = some (JSNum.val 95) ∧ CPU_THRESHOLD ≤ (95 : ℚ)
    ∧ hasCpuAlert (checkSystemHealth envC1 (some 9600000)).alerts = true := by
  refine ⟨rfl, by decide, ?_⟩
  exact ((c1_cpu_sustained_gate envC1 (some 9600000) 95 rfl (by decide)).2.1).mpr (by decide)

/-- C2: when `cpuPercent` is below the threshold or absent, no CPU
descriptor is produced and `overThresholdSince` is reset to unset; a
following over-threshold cycle therefore restarts the measurement: its new
sustain state is its own `now` and it produces no CPU descriptor. -/
theorem c2_cpu_reset_on_below_or_absent (env1 env2 : Env) (s0 : Option Int) (q2 : ℚ)
    (h1 : env1.cpu = none ∨ ∃ q, env1.cpu = some (JSNum.val q) ∧ q < CPU_THRESHOLD)
    (h2 : env2.cpu = some (JSNum.val q2)) (hge2 : CPU_THRESHOLD ≤ q2) :
    hasCpuAlert (checkSystemHealth env1 s0).alerts = false
    ∧ (checkSystemHealth env1 s0).newSince = none
    ∧ (checkSystemHealth env2 (checkSystemHealth env1 s0).newSince).newSince = some env2.now
    ∧ hasCpuAlert (checkSystemHealth env2 (checkSystemHealth env1 s0).newSince).alerts
        = false := by
  have hguard : jsGe env1.cpu CPU_THRESHOLD = false := by
    rcases h1 with h | ⟨q, hq, hlt⟩
    · rw [h]; rfl
    · rw [hq]
      exact decide_eq_false (not_le.mpr hlt)
  have hcc : cpuCheck env1 s0 = ([], none) := by
    unfold cpuCheck
    rw [hguard]
    simp
  have hres := c1_cpu_sustained_gate env2 none q2 h2 hge2
  have hnone : (checkSystemHealth env1 s0).newSince = none := by
    rw [checkSystemHealth_newSince_eq, hcc]
  refine ⟨?_, hnone, ?_, ?_⟩
  · rw [checkSystemHealth_alerts_eq, hcc]
    simp only [List.nil_append, hasCpuAlert_append, hasCpuAlert_memCheck,
      hasCpuAlert_swapCheck, Bool.or_self]
  · rw [hnone]
    have := hres.1
    simpa [falsy] using this
  · rw [hnone]
    exact hres.2.2.1 rfl

/-- Concrete environment for the C2 witness, first cycle: CPU at 50%,
below the 90% threshold. -/
def envC2a : Env :=
  { cpu := some (JSNum.val 50), mem := none, swap := none
    topCpu := fun _ => [], topMem := fun _ => []
    memDetail := none, swapDetail := none
    alertFile := AlertFile.missing, now := 10000000 }

/-- Concrete environment for the C2 witness, second cycle: CPU back at 95%
half a minute later. -/
def envC2b : Env :=
  { cpu := some (JSNum.val 95), mem := none, swap := none
    topCpu := fun _ => [], topMem := fun _ => []
    memDetail := none, swapDetail := none
    alertFile := AlertFile.missing, now := 10030000 }

/-- Witness for C2: a below-threshold cycle in the middle of an excursion
resets the timer, and the following over-threshold cycle alerts nothing. -/
theorem c2_witness :
    envC2a.cpu = some (JSNum.val 50) ∧ (50 : ℚ) < CPU_THRESHOLD
    ∧ envC2b.cpu = some (JSNum.val 95) ∧ CPU_THRESHOLD ≤ (95 : ℚ)
    ∧ (checkSystemHealth envC2a (some 9000000)).newSince = none
    ∧ (checkSystemHealth envC2b (checkSystemHealth envC2a (some 9000000)).newSince).newSince
        = some 10030000
    ∧ hasCpuAlert (checkSystemHealth envC2b
        (checkSystemHealth envC2a (some 9000000)).newSince).alerts = false := by
  have h := c2_cpu_reset_on_below_or_absent envC2a envC2b (some 9000000) 95
    (Or.inr ⟨50, rfl, by decide⟩) rfl (by decide)
  exact ⟨rfl, by decide, rfl, by decide, h.2.1, h.2.2.1, h.2.2.2⟩

/-- C10: a NaN sample (failed parse that did not throw) is treated exactly
like a non-triggering sample: no descriptor for that metric, and for CPU the
sustain state is reset to unset. -/
theorem c10_nan_nontriggering (env : Env) (s0 : Option Int)
    (hc : env.cpu = some JSNum.nan) :
    hasCpuAlert (checkSystemHealth env s0).alerts = false
    ∧ (checkSystemHealth env s0).newSince = none
    ∧ (∀ (env2 : Env) (s2 : Option Int), env2.mem = some JSNum.nan →
        hasMemAlert (checkSystemHealth env2 s2).alerts = false)
    ∧ (∀ (env2 : Env) (s2 : Option Int), env2.swap = some JSNum.nan →
        hasSwapAlert (checkSystemHealth env2 s2).alerts = false) := by
  have hguard : jsGe env.cpu CPU_THRESHOLD = false := by rw [hc]; rfl
  have hcc : cpuCheck env s0 = ([], none) := by
    unfold cpuCheck
    rw [hguard]
    simp
  refine ⟨?_, ?_, ?_, ?_⟩
  · rw [checkSystemHealth_alerts_eq, hcc]
    simp only [List.nil_append, hasCpuAlert_append, hasCpuAlert_memCheck,
      hasCpuAlert_swapCheck, Bool.or_self]
  · rw [checkSystemHealth_newSince_eq, hcc]
  · intro env2 s2 hm
    have hmc : memCheck env2 = [] := by
      unfold memCheck
      rw [hm]
      rfl
    rw [checkSystemHealth_alerts_eq, hmc]
    simp only [hasMemAlert_append, hasMemAlert_cpuCheck, hasMemAlert_swapCheck,
      Bool.or_self, Bool.false_or]
    rfl
  · intro env2 s2 hw
    have hwc : swapCheck env2 = [] := by
      unfold swapCheck
      rw [hw]
      rfl
    rw [checkSystemHealth_alerts_eq, hwc]
    simp only [hasSwapAlert_append, hasSwapAlert_cpuCheck, hasSwapAlert_memCheck,
      Bool.or_self, Bool.false_or]
    rfl

/-- Concrete environment for the C10 witness: all three providers returned
NaN parses. -/
def envC10 : Env :=
  { cpu := some JSNum.nan, mem := some JSNum.nan, swap := some JSNum.nan
    topCpu := fun _ => [], topMem := fun _ => []
    memDetail := none, swapDetail := none
    alertFile := AlertFile.missing, now := 10000000 }

/-- Witness for C10 at an all-NaN snapshot mid-excursion. -/
theorem c10_witness :
    envC10.cpu = some JSNum.nan ∧ envC10.mem = some JSNum.nan ∧ envC10.swap = some JSNum.nan
    ∧ hasCpuAlert (checkSystemHealth envC10 (some 9000000)).alerts = false
    ∧ (checkSystemHealth envC10 (some 9000000)).newSince = none
    ∧ hasMemAlert (checkSystemHealth envC10 (some 9000000)).alerts = false
    ∧ hasSwapAlert (checkSystemHealth envC10 (some 9000000)).alerts = false := by
  have h := c10_nan_nontriggering envC10 (some 9000000) rfl
  exact ⟨rfl, rfl, rfl, h.1, h.2.1, h.2.2.1 envC10 (some 9000000) rfl,
    h.2.2.2 envC10 (some 9000000) rfl⟩

/-- C5: memory and swap descriptors are gated purely on the current sample:
present-and-at-or-above produces the descriptor in the same cycle, absent
silently skips the branch, and the presence of either descriptor is
independent of the carried CPU sustain state (the only cross-cycle state). -/
theorem c5_mem_swap_instantaneous (env : Env) (s0 s1 : Option Int) (m w : ℚ) :
    (env.mem = some (JSNum.val m) → MEM_THRESHOLD ≤ m →
        hasMemAlert (checkSystemHealth env s0).alerts = true)
    ∧ (env.mem = none → hasMemAlert (checkSystemHealth env s0).alerts = false)
    ∧ (env.swap = some (JSNum.val w) → SWAP_THRESHOLD ≤ w →
        hasSwapAlert (checkSystemHealth env s0).alerts = true)
    ∧ (env.swap = none → hasSwapAlert (checkSystemHealth env s0).alerts = false)
    ∧ hasMemAlert (checkSystemHealth env s0).alerts
        = hasMemAlert (checkSystemHealth env s1).alerts
    ∧ hasSwapAlert (checkSystemHealth env s0).alerts
        = hasSwapAlert (checkSystemHealth env s1).alerts := by
  refine ⟨?_, ?_, ?_, ?_, ?_, ?_⟩
  · intro hm hge
    have hmc : memCheck env =
        [⟨"🧠 High Memory Usage Detected",
          memAlertBody (jsVal env.mem) env.memDetail (env.topMem 8),
          memAlertFields env.memDetail⟩] := by
      unfold memCheck
      rw [hm]
      simp [jsGe, decide_eq_true hge]
    rw [checkSystemHealth_alerts_eq, hmc]
    simp only [hasMemAlert_append, hasMemAlert_cpuCheck, hasMemAlert_swapCheck,
      Bool.false_or, Bool.or_false]
    simp [hasMemAlert]
  · intro hm
    have hmc : memCheck env = [] := by
      unfold memCheck
      rw [hm]
      rfl
    rw [checkSystemHealth_alerts_eq, hmc]
    simp only [hasMemAlert_append, hasMemAlert_cpuCheck, hasMemAlert_swapCheck,
      Bool.false_or, Bool.or_false]
    rfl
  · intro hw hge
    have hwc : swapCheck env =
        [⟨"💾 High Swap Usage Detected",
          swapAlertBody (jsVal env.swap) env.swapDetail,
          swapAlertFields env.swapDetail⟩] := by
      unfold swapCheck
      rw [hw]
      simp [jsGe, decide_eq_true hge]
    rw [checkSystemHealth_alerts_eq, hwc]
    simp only [hasSwapAlert_append, hasSwapAlert_cpuCheck, hasSwapAlert_memCheck,
      Bool.false_or, Bool.or_false]
    simp [hasSwapAlert]
  · intro hw
    have hwc : swapCheck env = [] := by
      unfold swapCheck
      rw [hw]
      rfl
    rw [checkSystemHealth_alerts_eq, hwc]
    simp only [hasSwapAlert_append, hasSwapAlert_cpuCheck, hasSwapAlert_memCheck,
      Bool.false_or, Bool.or_false]
    rfl
  · rw [checkSystemHealth_alerts_eq, checkSystemHealth_alerts_eq]
    simp only [hasMemAlert_append, hasMemAlert_cpuCheck, hasMemAlert_swapCheck,
      Bool.false_or, Bool.or_false]
  · rw [checkSystemHealth_alerts_eq, checkSystemHealth_alerts_eq]
    simp only [hasSwapAlert_append, hasSwapAlert_cpuCheck, hasSwapAlert_memCheck,
      Bool.false_or, Bool.or_false]

/-- Concrete environment for the C5 witness: memory at 95%, swap at 60%,
CPU absent. -/
def envC5 : Env :=
  { cpu := none, mem := some (JSNum.val 95), swap := some (JSNum.val 60)
    topCpu := fun _ => [], topMem := fun _ => []
    memDetail := none, swapDetail := none
    alertFile := AlertFile.missing, now := 10000000 }

/-- Witness for C5: one cycle at 95% memory produces a memory descriptor
with no prior history (`since0 = none`). -/
theorem c5_witness :
    envC5.mem = some (JSNum.val 95) ∧ MEM_THRESHOLD ≤ (95 : ℚ)
    ∧ envC5.swap = some (JSNum.val 60) ∧ SWAP_THRESHOLD ≤ (60 : ℚ)
    ∧ hasMemAlert (checkSystemHealth envC5 none).alerts = true
    ∧ hasSwapAlert (checkSystemHealth envC5 none).alerts = true := by
  have h := c5_mem_swap_instantaneous envC5 none (some 1) 95 60
  exact ⟨rfl, by decide, rfl, by decide, h.1 rfl (by decide), h.2.2.1 rfl (by decide)⟩

lemma checkSystemHealth_outcome_eq (env : Env) (s0 : Option Int) :
    (checkSystemHealth env s0).outcome =
      if (checkSystemHealth env s0).alerts.length > 0 then
        if cooldownGate env.now (getLastAlertTime env.alertFile) then Outcome.sent
        else Outcome.cooldownActive
      else Outcome.healthy := rfl

/-- C3: with a non-empty descriptor list, the cycle dispatches iff
`now - lastAlertTimestamp >= ALERT_COOLDOWN`, and otherwise suppresses the
whole cycle; the gate is one global window: any two cycles sharing `now` and
the persisted file reach the same dispatch decision whichever metrics
triggered them. -/
theorem c3_global_cooldown_gate (env env2 : Env) (s0 s2 : Option Int) (t : Int)
    (hread : getLastAlertTime env.alertFile = JSInt.val t)
    (hne : (checkSystemHealth env s0).alerts ≠ []) :
    ((checkSystemHealth env s0).outcome = Outcome.sent ↔ ALERT_COOLDOWN ≤ env.now - t)
    ∧ (env.now - t < ALERT_COOLDOWN →
        (checkSystemHealth env s0).outcome = Outcome.cooldownActive)
    ∧ (env2.now = env.now → env2.alertFile = env.alertFile →
        (checkSystemHealth env2 s2).alerts ≠ [] →
        (checkSystemHealth env2 s2).outcome = (checkSystemHealth env s0).outcome) := by
  have hlen : (checkSystemHealth env s0).alerts.length > 0 := List.length_pos.mpr hne
  have hout : (checkSystemHealth env s0).outcome =
      if cooldownGate env.now (getLastAlertTime env.alertFile) then Outcome.sent
      else Outcome.cooldownActive := by
    rw [checkSystemHealth_outcome_eq, if_pos hlen]
  refine ⟨?_, ?_, ?_⟩
  · rw [hout, hread]
    unfold cooldownGate
    by_cases hcd : ALERT_COOLDOWN ≤ env.now - t
    · simp [hcd]
    · simp [hcd]
  · intro hlt
    rw [hout, hread]
    unfold cooldownGate
    simp [not_le.mpr hlt]
  · intro hn hf hne2
    have hlen2 : (checkSystemHealth env2 s2).alerts.length > 0 := List.length_pos.mpr hne2
    rw [checkSystemHealth_outcome_eq, if_pos hlen2, hout, hn, hf]

/-- Concrete environment for the C3 witness: memory triggering, last alert
35 minutes ago (persisted as 7900000 with `now = 10000000`). -/
def envC3 : Env :=
  { cpu := none, mem := some (JSNum.val 95), swap := none
    topCpu := fun _ => [], topMem := fun _ => []
    memDetail := none, swapDetail := none
    alertFile := AlertFile.content "7900000", now := 10000000 }

/-- Witness for C3: 2100000 ms since the last alert exceeds the 1800000 ms
cooldown, so the cycle dispatches. -/
theorem c3_witness :
    getLastAlertTime envC3.alertFile = JSInt.val 7900000
    ∧ (checkSystemHealth envC3 none).alerts ≠ []
    ∧ (checkSystemHealth envC3 none).outcome = Outcome.sent := by
  refine ⟨by decide, by decide, ?_⟩
  exact ((c3_global_cooldown_gate envC3 envC3 none none 7900000 (by decide)
    (by decide)).1).mpr (by decide)

lemma composeMessage_titles (ctx : SendCtx) (alerts : List Alert) :
    (composeMessage ctx alerts).attachments.map Attachment.title =
      alerts.map Alert.title := by
  unfold composeMessage
  simp [List.map_map]

lemma cpuCheck_length_le (env : Env) (s0 : Option Int) :
    (cpuCheck env s0).1.length ≤ 1 := by
  unfold cpuCheck
  repeat' split
  all_goals simp
  all_goals split <;> simp

lemma memCheck_length_le (env : Env) : (memCheck env).length ≤ 1 := by
  unfold memCheck
  split <;> simp

lemma swapCheck_length_le (env : Env) : (swapCheck env).length ≤ 1 := by
  unfold swapCheck
  split <;> simp

/-- C6: each cycle produces zero to three descriptors in the fixed order
CPU, memory, swap; when all three conditions trigger, the descriptor list
and the composed message sections are exactly the three titles in that
order. -/
theorem c6_fixed_order (env : Env) (s0 : Option Int) (ctx : SendCtx) (c m w : ℚ)
    (hc : env.cpu = some (JSNum.val c)) (hcge : CPU_THRESHOLD ≤ c)
    (hm : env.mem = some (JSNum.val m)) (hmge : MEM_THRESHOLD ≤ m)
    (hw : env.swap = some (JSNum.val w)) (hwge : SWAP_THRESHOLD ≤ w)
    (hdur : CPU_OVER_THRESHOLD_DURATION ≤
      env.now - (if falsy s0 then env.now else s0.getD 0)) :
    (checkSystemHealth env s0).alerts.map Alert.title =
      ["🚀 High CPU Usage Detected", "🧠 High Memory Usage Detected",
       "💾 High Swap Usage Detected"]
    ∧ (composeMessage ctx (checkSystemHealth env s0).alerts).attachments.map
        Attachment.title =
      ["🚀 High CPU Usage Detected", "🧠 High Memory Usage Detected",
       "💾 High Swap Usage Detected"]
    ∧ (composeMessage ctx (checkSystemHealth env s0).alerts).attachments.length = 3
    ∧ (∀ (env3 : Env) (s3 : Option Int), (checkSystemHealth env3 s3).alerts.length ≤ 3) := by
  have hguard : jsGe env.cpu CPU_THRESHOLD = true := by
    rw [hc]; exact decide_eq_true hcge
  have hval : jsVal env.cpu = c := by rw [hc]; rfl
  have hcc : cpuCheck env s0 =
      ([⟨"🚀 High CPU Usage Detected",
         cpuAlertBody c env.now (if falsy s0 then env.now else s0.getD 0) (env.topCpu 8),
         cpuAlertFields⟩], some (if falsy s0 then env.now else s0.getD 0)) := by
    unfold cpuCheck
    rw [hguard, hval]
    simp [hdur]
  have hmc : memCheck env =
      [⟨"🧠 High Memory Usage Detected",
        memAlertBody (jsVal env.mem) env.memDetail (env.topMem 8),
        memAlertFields env.memDetail⟩] := by
    unfold memCheck
    rw [hm]
    simp [jsGe, decide_eq_true hmge]
  have hwc : swapCheck env =
      [⟨"💾 High Swap Usage Detected",
        swapAlertBody (jsVal env.swap) env.swapDetail,
        swapAlertFields env.swapDetail⟩] := by
    unfold swapCheck
    rw [hw]
    simp [jsGe, decide_eq_true hwge]
  have htitles : (checkSystemHealth env s0).alerts.map Alert.title =
      ["🚀 High CPU Usage Detected", "🧠 High Memory Usage Detected",
       "💾 High Swap Usage Detected"] := by
    rw [checkSystemHealth_alerts_eq, hcc, hmc, hwc]
    rfl
  refine ⟨htitles, ?_, ?_, ?_⟩
  · rw [composeMessage_titles, htitles]
  · have : (composeMessage ctx (checkSystemHealth env s0).alerts).attachments.length =
        ((composeMessage ctx (checkSystemHealth env s0).alerts).attachments.map
          Attachment.title).length := by
      rw [List.length_map]
    rw [this, composeMessage_titles, htitles]
    rfl
  · intro env3 s3
    rw [checkSystemHealth_alerts_eq]
    have h1 := cpuCheck_length_le env3 s3
    have h2 := memCheck_length_le env3
    have h3 := swapCheck_length_le env3
    simp only [List.length_append]
    omega

/-- Concrete environment for the C6 witness: all three metrics over their
thresholds with the CPU excursion old enough. -/
def envC6 : Env :=
  { cpu := some (JSNum.val 95), mem := some (JSNum.val 95), swap := some (JSNum.val 60)
    topCpu := fun _ => [], topMem := fun _ => []
    memDetail := none, swapDetail := none
    alertFile := AlertFile.missing, now := 10000000 }

/-- Concrete composition context for the C6 witness. -/
def ctxC6 : SendCtx :=
  { hostname := "web-1", uptime := some "up 3 days", load := some (1, 2, 3)
    disk := some ⟨"/dev/sda1", "40G", "10G", "30G", "25%", "/"⟩, tsSec := 10000 }

/-- Witness for C6: all three trigger, the message carries exactly three
sections in CPU, memory, swap order. -/
theorem c6_witness :
    CPU_OVER_THRESHOLD_DURATION ≤
      envC6.now - (if falsy (some 9600000) then envC6.now else (some (9600000 : Int)).getD 0)
    ∧ (checkSystemHealth envC6 (some 9600000)).alerts.map Alert.title =
      ["🚀 High CPU Usage Detected", "🧠 High Memory Usage Detected",
       "💾 High Swap Usage Detected"]
    ∧ (composeMessage ctxC6 (checkSystemHealth envC6 (some 9600000)).alerts).attachments.length
        = 3 := by
  have h := c6_fixed_order envC6 (some 9600000) ctxC6 95 95 60 rfl (by decide) rfl
    (by decide) rfl (by decide) (by decide)
  exact ⟨by decide, h.1, h.2.2.1⟩

/-- Concrete environment for the C9 counterexample: swap at 60% with no
detailed swap info. -/
def envC9 : Env :=
  { cpu := none, mem := none, swap := some (JSNum.val 60)
    topCpu := fun _ => [], topMem := fun _ => []
    memDetail := none, swapDetail := none
    alertFile := AlertFile.missing, now := 10000000 }

/-- C9 counterexample: the swap descriptor body renders the threshold as
the plain integer "50%", not with one decimal place, refuting the claim
that displayed thresholds carry one decimal. -/
theorem c9_counterexample :
    (swapCheck envC9).map Alert.value =
      ["*Current Swap Usage: 60.0%*\n*Threshold: 50%*"]
    ∧ showNum SWAP_THRESHOLD = "50"
    ∧ hasOneDecimal (showNum SWAP_THRESHOLD) = false := by decide

/-- C9 (amended): the current CPU/memory/swap values and the elapsed CPU
duration are rendered with one decimal place (`toFixed(1)`), but the
displayed thresholds are interpolated as plain integers ("90", "50") with
no decimal place. -/
theorem c9_one_decimal_amended :
    (∀ q : ℚ, 0 ≤ q → hasOneDecimal (toFixed1 q) = true)
    ∧ (∀ (cv : ℚ) (now since : Int) (procs : List ProcessRecord),
        cpuAlertBody cv now since procs =
          "*Current CPU Usage: " ++ toFixed1 cv ++ "%*\n*Threshold: " ++
          showNum CPU_THRESHOLD ++ "%*\n*Duration: " ++
          toFixed1 (Rat.divInt (now - since) 60000) ++
          " minutes*\n\n*Top CPU Processes:*\n" ++
          formatProcessList (PList.list procs) "cpu")
    ∧ (∀ (mv : ℚ) (procs : List ProcessRecord),
        memAlertBody mv none procs =
          "*Current Memory Usage: " ++ toFixed1 mv ++ "%*\n*Threshold: " ++
          showNum MEM_THRESHOLD ++ "%*" ++ "\n\n*Top Memory Processes:*\n" ++
          formatProcessList (PList.list procs) "memory")
    ∧ (∀ wv : ℚ, swapAlertBody wv none =
        "*Current Swap Usage: " ++ toFixed1 wv ++ "%*\n*Threshold: " ++
        showNum SWAP_THRESHOLD ++ "%*")
    ∧ showNum CPU_THRESHOLD = "90" ∧ showNum MEM_THRESHOLD = "90"
    ∧ showNum SWAP_THRESHOLD = "50"
    ∧ hasOneDecimal (showNum CPU_THRESHOLD) = false
    ∧ hasOneDecimal (showNum SWAP_THRESHOLD) = false := by
  refine ⟨fun q h => hasOneDecimal_toFixed1 h, fun cv now since procs => rfl,
    fun mv procs => rfl, fun wv => rfl, by decide, by decide, by decide,
    by decide, by decide⟩

/-- Witness for the amended C9 at the concrete value 95. -/
theorem c9_witness :
    (0 : ℚ) ≤ 95 ∧ hasOneDecimal (toFixed1 95) = true := by
  exact ⟨by decide, c9_one_decimal_amended.1 95 (by decide)⟩
